import Mathlib

/-!
Shallow embedding of `apps/web/src/components/forms/status-page-form.tsx`
(the `StatusPageForm` React component).

Modelling conventions:
* Optional TS values (`defaultValues?`, `allMonitors?`, `nextUrl?`, a
  nullable page result) become `Option`.
* JavaScript truthiness is made explicit: for a string, falsy means `""`;
  for a `Nat` id, falsy means `0`; for an optional boolean prop, truthy
  means `some true`; a JS array is always truthy.
* Remote calls are parameters: the slug-uniqueness endpoint is a function
  `remote : String → Bool`, the create/update mutations are `Except Unit _`
  outcomes (`Except.error ()` models the promise rejecting), the icon
  upload response URL is a `String` parameter.
* Handlers that only touch form fields are state transformers on
  `FormState`; the submit pipeline is modelled as the list of externally
  visible effects it performs, in order (`Effect`).
* `slugify` lives in `@/lib/utils`, outside this file's slice; the claims
  only relate the slug field to its output, so it is an abstract
  `String → String` parameter.
-/

namespace StatusPage

/-- The form schema `z.infer<typeof insertPageSchemaWithMonitors>`:
title, slug, description, workspaceId, id, monitors, customDomain,
workspaceSlug, icon — exactly the fields the component reads or writes. -/
structure Schema where
  title : String
  slug : String
  description : String
  workspaceId : Nat
  id : Nat
  monitors : List Nat
  customDomain : String
  workspaceSlug : String
  icon : String
deriving DecidableEq

/-- A monitor from `allMonitorsExtendedSchema`: the component only reads
`id`, `name` and `url`. -/
structure Monitor where
  id : Nat
  name : String
  url : String
deriving DecidableEq

/-- Result of `api.page.createPage.mutate`; the component only reads `id`
(through `page?.id`, so the whole result may be nullish). -/
structure PageResult where
  id : Nat
deriving DecidableEq

/-- The mutable form-field state the handlers touch: the watched field
values plus the slug field error set by `form.setError("slug", ...)`. -/
structure FormState where
  title : String
  slug : String
  description : String
  icon : String
  monitors : List Nat
  slugError : Option String
deriving DecidableEq

/-- JS truthiness of an optional string: `undefined` and `""` are falsy. -/
def strTruthy : Option String → Bool
  | some s => s != ""
  | none => false

/-- JS `a?.x || b` for a string field: falls back to `b` when the object is
absent or the field is the empty string. -/
def jsOrString : Option String → String → String
  | some s, b => if s = "" then b else s
  | none, b => b

/-- JS `a?.x || b` for a numeric field: falls back to `b` when the object is
absent or the field is `0`. -/
def jsOrNat : Option Nat → Nat → Nat
  | some n, b => if n = 0 then b else n
  | none, b => b

/-- JS truthiness of the optional `checkAllMonitors` boolean prop. -/
def optBoolTruthy : Option Bool → Bool
  | some b => b
  | none => false

/-- The `useForm` `defaultValues` object (lines 62-76 of the source):
each field is `defaultValues?.<field> || <falsy default>`, except
`monitors`, which is `checkAllMonitors && allMonitors ?
allMonitors.map(({id}) => id) : defaultValues?.monitors ?? []`
(a present JS array is truthy even when empty, and `??` only falls back on
nullish), and `workspaceSlug`, which is always `""`. -/
def initialFormValues (defaultValues : Option Schema)
    (checkAllMonitors : Option Bool) (allMonitors : Option (List Monitor)) :
    Schema :=
  { title := jsOrString (defaultValues.map Schema.title) ""
    slug := jsOrString (defaultValues.map Schema.slug) ""
    description := jsOrString (defaultValues.map Schema.description) ""
    workspaceId := jsOrNat (defaultValues.map Schema.workspaceId) 0
    id := jsOrNat (defaultValues.map Schema.id) 0
    monitors :=
      if optBoolTruthy checkAllMonitors && allMonitors.isSome then
        (allMonitors.getD []).map Monitor.id
      else
        (defaultValues.map Schema.monitors).getD []
    customDomain := jsOrString (defaultValues.map Schema.customDomain) ""
    workspaceSlug := ""
    icon := jsOrString (defaultValues.map Schema.icon) "" }

/-- JS `String.prototype.toLowerCase`, modelled as the character-wise
lowercase map (slugs are ASCII subdomains, where the two agree). -/
def jsToLower (s : String) : String :=
  String.mk (s.data.map Char.toLower)

/-- The self-match exemption inside `checkUniqueSlug`:
`debouncedSlug.toLowerCase() === defaultValues?.slug.toLowerCase()`.
When `defaultValues` is absent the optional chain yields `undefined` and
the strict equality with a string is `false`. -/
def selfMatch (defaultSlug : Option String) (s : String) : Bool :=
  match defaultSlug with
  | some orig => jsToLower s == jsToLower orig
  | none => false

/-- `checkUniqueSlug` (lines 86-94): queries the remote uniqueness endpoint
at the DEBOUNCED slug (the callback closes over `debouncedSlug`, not over
the live field value) and returns
`isUnique || debouncedSlug.toLowerCase() === defaultValues?.slug.toLowerCase()`. -/
def checkUniqueSlug (remote : String → Bool) (defaultSlug : Option String)
    (debouncedSlug : String) : Bool :=
  remote debouncedSlug || selfMatch defaultSlug debouncedSlug

/-- The body of the `watchSlugChanges` effect (lines 96-110): if the check
fails, `form.setError("slug", {message: "Already taken. Please select
another slug."})`; otherwise `form.clearErrors("slug")`. -/
def watchSlugChanges (remote : String → Bool) (defaultSlug : Option String)
    (debouncedSlug : String) (st : FormState) : FormState :=
  if !(checkUniqueSlug remote defaultSlug debouncedSlug) then
    { st with slugError := some "Already taken. Please select another slug." }
  else
    { st with slugError := none }

/-- The title-to-slug `useEffect` (lines 112-116): when
`!defaultValues?.title` (i.e. `defaultValues` is absent or its title is the
empty string), `form.setValue("slug", slugify(watchTitle))`; otherwise it
does nothing. -/
def titleEffect (slugify : String → String) (defaultTitle : Option String)
    (watchTitle : String) (st : FormState) : FormState :=
  if !(strTruthy defaultTitle) then
    { st with slug := slugify watchTitle }
  else
    st

/-- `handleChange` (lines 145-159): returns immediately when the `FileList`
is `null` or empty; otherwise uploads `file[0]` and stores the returned
blob URL into the icon field. `uploadUrl` is the `url` of the successful
upload response. Files are represented by their names. -/
def handleChange (uploadUrl : String) (files : Option (List String))
    (st : FormState) : FormState :=
  match files with
  | none => st
  | some fs =>
    if fs.length = 0 then st
    else { st with icon := uploadUrl }

/-- The Remove button's `onClick` (lines 259-261): `form.setValue("icon", "")`. -/
def removeIcon (st : FormState) : FormState :=
  { st with icon := "" }

/-- The icon `FormField` render branches (lines 239-266): the file picker
is shown when `!field.value` and the preview-plus-remove block when
`field.value` (string truthiness: empty means falsy). -/
inductive IconUI where
  | picker
  | preview
deriving DecidableEq

/-- Which icon UI branch renders for a given form state. -/
def iconUIMode (st : FormState) : IconUI :=
  if st.icon = "" then IconUI.picker else IconUI.preview

/-- Externally visible effects of the submit pipeline, in program order:
the two tRPC mutation calls (recorded with their argument even when the
call subsequently rejects), `router.replace` with the id handed to
`updateSearchParams`, `toast(...)`, `router.push`, `router.refresh()`, and
`form.setValue` (never emitted by the submit path — present so the absence
of field mutation is expressible). -/
inductive Effect where
  | callCreatePage (props : Schema)
  | callUpdatePage (props : Schema)
  | routerReplace (id : Option Nat)
  | toast (msg : String)
  | routerPush (url : String)
  | routerRefresh
  | setField (name value : String)
deriving DecidableEq

/-- `page?.id || null` (line 131): the created page's id when the result is
present with a truthy (nonzero) id, otherwise `null`. -/
def pageIdOrNull : Option PageResult → Option Nat
  | some p => if p.id = 0 then none else some p.id
  | none => none

/-- The shared tail of the success path (lines 134-138): `toast("saved")`,
then `router.push(nextUrl)` when `nextUrl` is provided, then
`router.refresh()`. -/
def successTail (nextUrl : Option String) : List Effect :=
  [Effect.toast "saved"] ++
    (match nextUrl with
     | some u => [Effect.routerPush u]
     | none => []) ++
    [Effect.routerRefresh]

/-- `onSubmit` (lines 118-143): inside `try`, if `defaultValues` is present
call `updatePage(props)`, else call `createPage({...props, workspaceSlug})`
and `router.replace` with `page?.id || null`; then the success tail.
A rejection of the awaited mutation jumps to `catch { toast("error") }`,
skipping everything after the failed call. `upd` and `cr` are the outcomes
of the two mutations (only the one actually called matters). -/
def onSubmit (defaultValues : Option Schema) (workspaceSlug : String)
    (nextUrl : Option String) (props : Schema) (upd : Except Unit Unit)
    (cr : Except Unit (Option PageResult)) : List Effect :=
  match defaultValues with
  | some _ =>
    Effect.callUpdatePage props ::
      (match upd with
       | Except.error _ => [Effect.toast "error"]
       | Except.ok _ => successTail nextUrl)
  | none =>
    Effect.callCreatePage { props with workspaceSlug := workspaceSlug } ::
      (match cr with
       | Except.error _ => [Effect.toast "error"]
       | Except.ok page =>
         Effect.routerReplace (pageIdOrNull page) :: successTail nextUrl)

/-- The slug-related component state at submit time: the live slug field
value (`form.watch("slug")`) and the debounced value
(`useDebounce(watchSlug, 1000)`), which trails the live value until the
1000 ms debounce window elapses, so the two can differ. -/
structure SlugState where
  watchSlug : String
  debouncedSlug : String
deriving DecidableEq

/-- The form element's `onSubmit` handler (lines 164-175): prevent default,
re-run `checkUniqueSlug` (which closes over the DEBOUNCED slug); when it
fails, `toast("unique-slug")` and stop; otherwise run
`form.handleSubmit(onSubmit)`, which invokes `onSubmit` only when the draft
passes schema validation (`valid`). -/
def formSubmitHandler (remote : String → Bool) (defaultValues : Option Schema)
    (slugs : SlugState) (valid : Bool) (props : Schema) (workspaceSlug : String)
    (nextUrl : Option String) (upd : Except Unit Unit)
    (cr : Except Unit (Option PageResult)) : List Effect :=
  if checkUniqueSlug remote (defaultValues.map Schema.slug) slugs.debouncedSlug then
    if valid then onSubmit defaultValues workspaceSlug nextUrl props upd cr
    else []
  else
    [Effect.toast "unique-slug"]

/-- Whether an effect is a `createPage` mutation call. -/
def isCreateCall : Effect → Bool
  | Effect.callCreatePage _ => true
  | _ => false

/-- Whether an effect is an `updatePage` mutation call. -/
def isUpdateCall : Effect → Bool
  | Effect.callUpdatePage _ => true
  | _ => false

/-- Whether an effect is a `router.replace` (query-string mutation). -/
def isReplace : Effect → Bool
  | Effect.routerReplace _ => true
  | _ => false

/-- Number of `createPage` calls in an effect trace. -/
def countCreate (tr : List Effect) : Nat := tr.countP isCreateCall

/-- Number of `updatePage` calls in an effect trace. -/
def countUpdate (tr : List Effect) : Nat := tr.countP isUpdateCall

/-- Number of `router.replace` query-string mutations in an effect trace. -/
def countReplace (tr : List Effect) : Nat := tr.countP isReplace

/-- A concrete draft used by witnesses and counterexamples. -/
def exProps : Schema :=
  { title := "Docs"
    slug := "docs"
    description := ""
    workspaceId := 1
    id := 0
    monitors := [1, 2]
    customDomain := ""
    workspaceSlug := ""
    icon := "" }

/-- A concrete form state used by witnesses. -/
def exState : FormState :=
  { title := "Docs"
    slug := "docs"
    description := ""
    icon := ""
    monitors := [1, 2]
    slugError := none }

end StatusPage

namespace StatusPage

/-- Claim C3: for every slug S that case-insensitively equals the original
draft's slug, `checkUniqueSlug` returns true regardless of the boolean the
remote `getSlugUniqueness` call returns. -/
theorem claim_C3_self_match_passes (remote : String → Bool)
    (origSlug S : String) (h : jsToLower S = jsToLower origSlug) :
    checkUniqueSlug remote (some origSlug) S = true := by
  simp [checkUniqueSlug, selfMatch, h]

/-- Claim C3 witness: with a remote that always answers not-unique, the
check still passes on a case-variant of the original slug. -/
theorem claim_C3_witness :
    jsToLower "DOCS" = jsToLower "docs" ∧
    checkUniqueSlug (fun _ => false) (some "docs") "DOCS" = true :=
  ⟨by decide, claim_C3_self_match_passes (fun _ => false) "docs" "DOCS" (by decide)⟩

/-- Claim C4: while the component was mounted without a pre-existing title
(`defaultValues.title` empty or absent), entering any title T sets the slug
field to `slugify T`. -/
theorem claim_C4_title_derives_slug (slugify : String → String)
    (defaultTitle : Option String) (T : String) (st : FormState)
    (h : defaultTitle = none ∨ defaultTitle = some "") :
    (titleEffect slugify defaultTitle T st).slug = slugify T := by
  rcases h with h | h <;> subst h <;> simp [titleEffect, strTruthy]

/-- Claim C4 witness: with an abstract slugifier appending a suffix, the
slug field follows the entered title in create mode. -/
theorem claim_C4_witness :
    ((none : Option String) = none ∨ (none : Option String) = some "") ∧
    (titleEffect (fun t => t ++ "-s") none "My Page" exState).slug = "My Page" ++ "-s" :=
  ⟨Or.inl rfl,
   claim_C4_title_derives_slug (fun t => t ++ "-s") none "My Page" exState (Or.inl rfl)⟩

/-- Claim C5: when the draft was loaded with a non-empty
`defaultValues.title`, the title-to-slug effect leaves the whole form state
(in particular the slug field) unchanged for every later title value. -/
theorem claim_C5_existing_title_freezes_slug (slugify : String → String)
    (t T : String) (st : FormState) (h : t ≠ "") :
    titleEffect slugify (some t) T st = st := by
  simp [titleEffect, strTruthy, h]

/-- Claim C5 witness: in edit mode with an existing title, a title edit
does not touch the slug. -/
theorem claim_C5_witness :
    "Docs" ≠ "" ∧
    titleEffect (fun t => t ++ "-s") (some "Docs") "New Title" exState = exState :=
  ⟨by decide,
   claim_C5_existing_title_freezes_slug (fun t => t ++ "-s") "Docs" "New Title" exState
     (by decide)⟩

/-- Claim C6: for every debounced slug value, if the remote reports
not-unique and the slug differs case-insensitively from the original, the
slug field error "Already taken. Please select another slug." is set;
whenever the check passes (remote unique or self-match), the error is
cleared. -/
theorem claim_C6_debounced_check_sets_or_clears_error (remote : String → Bool)
    (defaultSlug : Option String) (dslug : String) (st : FormState) :
    (remote dslug = false → selfMatch defaultSlug dslug = false →
      (watchSlugChanges remote defaultSlug dslug st).slugError =
        some "Already taken. Please select another slug.") ∧
    (remote dslug = true ∨ selfMatch defaultSlug dslug = true →
      (watchSlugChanges remote defaultSlug dslug st).slugError = none) := by
  constructor
  · intro hr hm
    simp [watchSlugChanges, checkUniqueSlug, hr, hm]
  · rintro (h | h) <;> simp [watchSlugChanges, checkUniqueSlug, h]

/-- Claim C6 witness: a remote not-unique answer on a fresh slug sets the
field error. -/
theorem claim_C6_witness :
    ((fun _ => false) "docs" : Bool) = false ∧
    selfMatch none "docs" = false ∧
    (watchSlugChanges (fun _ => false) none "docs" exState).slugError =
      some "Already taken. Please select another slug." :=
  ⟨rfl, rfl,
   (claim_C6_debounced_check_sets_or_clears_error (fun _ => false) none "docs" exState).1
     rfl rfl⟩

/-- Claim C9: a file selection with a successful upload response
containing url U sets the icon field to exactly U and switches the icon UI
to preview; the Remove button resets the icon to the empty string,
restoring the file picker; a null or empty file list leaves the state
untouched. -/
theorem claim_C9_icon_upload_and_remove (uploadUrl : String)
    (files : List String) (st : FormState) (hf : files ≠ [])
    (hU : uploadUrl ≠ "") :
    (handleChange uploadUrl (some files) st).icon = uploadUrl ∧
    iconUIMode (handleChange uploadUrl (some files) st) = IconUI.preview ∧
    (removeIcon st).icon = "" ∧
    iconUIMode (removeIcon st) = IconUI.picker ∧
    handleChange uploadUrl none st = st ∧
    handleChange uploadUrl (some []) st = st := by
  obtain ⟨f, fs, rfl⟩ := List.exists_cons_of_ne_nil hf
  refine ⟨?_, ?_, rfl, ?_, rfl, rfl⟩
  · simp [handleChange]
  · simp [iconUIMode, handleChange, hU]
  · simp [iconUIMode, removeIcon]

/-- Claim C9 witness: a concrete upload stores the blob URL and flips the
UI to preview mode. -/
theorem claim_C9_witness :
    ["fav.png"] ≠ ([] : List String) ∧
    "https://x/y.png" ≠ "" ∧
    (handleChange "https://x/y.png" (some ["fav.png"]) exState).icon = "https://x/y.png" ∧
    iconUIMode (handleChange "https://x/y.png" (some ["fav.png"]) exState) = IconUI.preview :=
  ⟨by decide, by decide,
   (claim_C9_icon_upload_and_remove "https://x/y.png" ["fav.png"] exState
      (by decide) (by decide)).1,
   (claim_C9_icon_upload_and_remove "https://x/y.png" ["fav.png"] exState
      (by decide) (by decide)).2.1⟩

/-- Claim C10: with `checkAllMonitors` true and `allMonitors` provided,
the initial monitors field is the id list of all provided monitors, even
when `defaultValues.monitors` is supplied; otherwise it is
`defaultValues.monitors`, or the empty list when absent. -/
theorem claim_C10_initial_monitors (defaultValues : Option Schema)
    (checkAllMonitors : Option Bool) (allMonitors : Option (List Monitor))
    (ms : List Monitor) :
    (checkAllMonitors = some true → allMonitors = some ms →
      (initialFormValues defaultValues checkAllMonitors allMonitors).monitors =
        ms.map Monitor.id) ∧
    (optBoolTruthy checkAllMonitors = false ∨ allMonitors = none →
      (initialFormValues defaultValues checkAllMonitors allMonitors).monitors =
        (defaultValues.map Schema.monitors).getD []) := by
  constructor
  · rintro rfl rfl
    simp [initialFormValues, optBoolTruthy]
  · rintro (h | rfl)
    · simp [initialFormValues, h]
    · simp [initialFormValues]

/-- Claim C10 witness: pre-select-all overrides supplied default monitors. -/
theorem claim_C10_witness :
    (some true : Option Bool) = some true ∧
    (some [Monitor.mk 7 "m7" "u7", Monitor.mk 9 "m9" "u9"] :
        Option (List Monitor)) = some [Monitor.mk 7 "m7" "u7", Monitor.mk 9 "m9" "u9"] ∧
    (initialFormValues (some exProps) (some true)
        (some [Monitor.mk 7 "m7" "u7", Monitor.mk 9 "m9" "u9"])).monitors = [7, 9] :=
  ⟨rfl, rfl,
   (claim_C10_initial_monitors (some exProps) (some true)
      (some [Monitor.mk 7 "m7" "u7", Monitor.mk 9 "m9" "u9"])
      [Monitor.mk 7 "m7" "u7", Monitor.mk 9 "m9" "u9"]).1 rfl rfl⟩

end StatusPage

namespace StatusPage

/-- Claim C1: once the submit gate passes (slug check true) and the draft
is schema-valid, the trace contains exactly one `createPage` call carrying
the `workspaceSlug` prop and no `updatePage` call when `defaultValues` is
absent, and exactly one `updatePage` call and no `createPage` call when it
is present — whatever the mutation outcome. -/
theorem claim_C1_create_xor_update (remote : String → Bool)
    (defaultValues : Option Schema) (slugs : SlugState) (props : Schema)
    (ws : String) (nextUrl : Option String) (upd : Except Unit Unit)
    (cr : Except Unit (Option PageResult))
    (hu : checkUniqueSlug remote (defaultValues.map Schema.slug)
        slugs.debouncedSlug = true) :
    (defaultValues = none →
      countCreate (formSubmitHandler remote defaultValues slugs true props ws
        nextUrl upd cr) = 1 ∧
      countUpdate (formSubmitHandler remote defaultValues slugs true props ws
        nextUrl upd cr) = 0 ∧
      ∀ p, Effect.callCreatePage p ∈
          formSubmitHandler remote defaultValues slugs true props ws nextUrl upd cr →
        p.workspaceSlug = ws) ∧
    (∀ dv, defaultValues = some dv →
      countUpdate (formSubmitHandler remote defaultValues slugs true props ws
        nextUrl upd cr) = 1 ∧
      countCreate (formSubmitHandler remote defaultValues slugs true props ws
        nextUrl upd cr) = 0) := by
  constructor
  · rintro rfl
    have hu' : checkUniqueSlug remote none slugs.debouncedSlug = true := hu
    refine ⟨?_, ?_, ?_⟩ <;>
      rcases cr with _ | page <;> rcases nextUrl with _ | u <;>
        simp [formSubmitHandler, hu', onSubmit, successTail, countCreate,
          countUpdate, isCreateCall, isUpdateCall, List.countP_cons]
  · rintro dv rfl
    have hu' : checkUniqueSlug remote (some dv.slug) slugs.debouncedSlug = true := hu
    rcases upd with _ | _ <;> rcases nextUrl with _ | u <;>
      constructor <;>
        simp [formSubmitHandler, hu', onSubmit, successTail, countCreate,
          countUpdate, isCreateCall, isUpdateCall, List.countP_cons]

/-- Claim C1 witness: a valid, unique-slug submission in create mode issues
exactly one `createPage` call. -/
theorem claim_C1_witness :
    checkUniqueSlug (fun _ => true) (Option.map Schema.slug none)
      (SlugState.mk "docs" "docs").debouncedSlug = true ∧
    countCreate (formSubmitHandler (fun _ => true) none
      (SlugState.mk "docs" "docs") true exProps "ws" none (Except.ok ())
      (Except.ok none)) = 1 :=
  ⟨rfl,
   ((claim_C1_create_xor_update (fun _ => true) none (SlugState.mk "docs" "docs")
      exProps "ws" none (Except.ok ()) (Except.ok none) rfl).1 rfl).1⟩

/-- Claim C2 counterexample: the submit-time gate re-runs `checkUniqueSlug`
on the DEBOUNCED slug, not on the live field value. With a remote that
says only "abc" is taken, live slug "abc" and debounced slug "abcd" (the
user retyped within the debounce window), the check on the current slug
value reports not-unique, yet the submission is not aborted: `createPage`
is called and no "unique-slug" toast is shown. -/
theorem claim_C2_counterexample :
    checkUniqueSlug (fun s => !(s == "abc")) (Option.map Schema.slug none)
      (SlugState.mk "abc" "abcd").watchSlug = false ∧
    countCreate (formSubmitHandler (fun s => !(s == "abc")) none
      (SlugState.mk "abc" "abcd") true exProps "ws" none (Except.ok ())
      (Except.ok none)) = 1 ∧
    Effect.toast "unique-slug" ∉
      formSubmitHandler (fun s => !(s == "abc")) none
        (SlugState.mk "abc" "abcd") true exProps "ws" none (Except.ok ())
        (Except.ok none) := by
  refine ⟨rfl, rfl, ?_⟩
  decide

/-- Claim C2 amended: the submit handler re-invokes `checkUniqueSlug` on
the current DEBOUNCED slug value (no new debounce delay); whenever that
check reports the slug as not unique, the submission is aborted with the
"unique-slug" toast as the sole effect — in particular neither mutation is
called. -/
theorem claim_C2_amended_debounced_gate (remote : String → Bool)
    (defaultValues : Option Schema) (slugs : SlugState) (valid : Bool)
    (props : Schema) (ws : String) (nextUrl : Option String)
    (upd : Except Unit Unit) (cr : Except Unit (Option PageResult))
    (h : checkUniqueSlug remote (defaultValues.map Schema.slug)
        slugs.debouncedSlug = false) :
    formSubmitHandler remote defaultValues slugs valid props ws nextUrl upd cr =
      [Effect.toast "unique-slug"] := by
  simp [formSubmitHandler, h]

/-- Claim C2 amended witness: a taken debounced slug aborts the submission
with only the toast. -/
theorem claim_C2_amended_witness :
    checkUniqueSlug (fun _ => false) (Option.map Schema.slug none)
      (SlugState.mk "docs" "docs").debouncedSlug = false ∧
    formSubmitHandler (fun _ => false) none (SlugState.mk "docs" "docs") true
      exProps "ws" none (Except.ok ()) (Except.ok none) =
      [Effect.toast "unique-slug"] :=
  ⟨rfl,
   claim_C2_amended_debounced_gate (fun _ => false) none
     (SlugState.mk "docs" "docs") true exProps "ws" none (Except.ok ())
     (Except.ok none) rfl⟩

/-- Claim C7: when the awaited mutation rejects, the trace is exactly the
failed mutation call followed by the "error" toast: no field mutation, no
`router.replace`, no navigation, no refresh, no "saved" toast. -/
theorem claim_C7_mutation_failure_only_error_toast (dv props : Schema)
    (ws : String) (nextUrl : Option String) (upd : Except Unit Unit)
    (cr : Except Unit (Option PageResult)) :
    (upd = Except.error () →
      onSubmit (some dv) ws nextUrl props upd cr =
        [Effect.callUpdatePage props, Effect.toast "error"]) ∧
    (cr = Except.error () →
      onSubmit none ws nextUrl props upd cr =
        [Effect.callCreatePage { props with workspaceSlug := ws },
         Effect.toast "error"]) := by
  constructor <;> rintro rfl <;> rfl

/-- Claim C7 witness: a rejected `updatePage` leaves only the call and the
generic error toast in the trace. -/
theorem claim_C7_witness :
    (Except.error () : Except Unit Unit) = Except.error () ∧
    onSubmit (some exProps) "ws" (some "/next") exProps (Except.error ())
      (Except.ok none) =
      [Effect.callUpdatePage exProps, Effect.toast "error"] :=
  ⟨rfl,
   (claim_C7_mutation_failure_only_error_toast exProps exProps "ws"
      (some "/next") (Except.error ()) (Except.ok none)).1 rfl⟩

/-- Claim C8 counterexample: on a successful create whose result is
`{id: 0}`, the code computes `page?.id || null = null` and replaces the
query string with a null id, not with the returned id 0 — so the query
string is not "replaced with the id returned by createPage". -/
theorem claim_C8_counterexample :
    pageIdOrNull (some (PageResult.mk 0)) = none ∧
    Effect.routerReplace (some 0) ∉
      onSubmit none "ws" none exProps (Except.ok ())
        (Except.ok (some (PageResult.mk 0))) ∧
    Effect.routerReplace none ∈
      onSubmit none "ws" none exProps (Except.ok ())
        (Except.ok (some (PageResult.mk 0))) := by
  decide

/-- Claim C8 amended: `router.replace` occurs only on the successful create
path — never on the update path and never on a rejected create; on a
successful create it occurs exactly once, carrying the returned page's id
when that id is present and nonzero and a null id otherwise
(`page?.id || null`). -/
theorem claim_C8_amended_replace_only_on_create (dv props : Schema)
    (ws : String) (nextUrl : Option String) (upd : Except Unit Unit)
    (cr : Except Unit (Option PageResult)) (page : Option PageResult) :
    (∀ oid, Effect.routerReplace oid ∉ onSubmit (some dv) ws nextUrl props upd cr) ∧
    (cr = Except.error () →
      ∀ oid, Effect.routerReplace oid ∉ onSubmit none ws nextUrl props upd cr) ∧
    (cr = Except.ok page →
      countReplace (onSubmit none ws nextUrl props upd cr) = 1 ∧
      Effect.routerReplace (pageIdOrNull page) ∈
        onSubmit none ws nextUrl props upd cr) := by
  refine ⟨?_, ?_, ?_⟩
  · intro oid
    rcases upd with _ | _ <;> rcases nextUrl with _ | u <;>
      simp [onSubmit, successTail]
  · rintro rfl oid
    simp [onSubmit]
  · rintro rfl
    rcases nextUrl with _ | u <;>
      simp [onSubmit, successTail, countReplace, isReplace, List.countP_cons,
        List.countP_append]

/-- Claim C8 amended witness: a successful create returning id 5 replaces
the query string once, with that id; an update never replaces it. -/
theorem claim_C8_amended_witness :
    (Except.ok (some (PageResult.mk 5)) : Except Unit (Option PageResult)) =
      Except.ok (some (PageResult.mk 5)) ∧
    countReplace (onSubmit none "ws" none exProps (Except.ok ())
      (Except.ok (some (PageResult.mk 5)))) = 1 ∧
    Effect.routerReplace (pageIdOrNull (some (PageResult.mk 5))) ∈
      onSubmit none "ws" none exProps (Except.ok ())
        (Except.ok (some (PageResult.mk 5))) :=
  ⟨rfl,
   ((claim_C8_amended_replace_only_on_create exProps exProps "ws" none
      (Except.ok ()) (Except.ok (some (PageResult.mk 5)))
      (some (PageResult.mk 5))).2.2 rfl).1,
   ((claim_C8_amended_replace_only_on_create exProps exProps "ws" none
      (Except.ok ()) (Except.ok (some (PageResult.mk 5)))
      (some (PageResult.mk 5))).2.2 rfl).2⟩

end StatusPage
